import Mathlib

/-!
Verification development for the LLM-Voice-API brand-voice service.

The Python sources under `app/` are shallowly embedded: the database is a
pure `DBState` value; SQLAlchemy queries become list operations; `uuid4`
fresh-id generation is modelled by a monotone `nextId` allocator; Python
floats are modelled by rationals (`ℚ`); the external LLM provider client,
the network and the JSON parser are parameters of the embedded functions
(`LLMGen`, `net`, `parse`), exactly the collaborators the code treats as
opaque.  The stub's SHA-256-based score is embedded with a full SHA-256
implementation over `Nat` words reduced modulo `2 ^ 32`.
-/

namespace VoiceAPI

/-- `VoiceSource` enum from `app/models/voice.py`: SITE | MANUAL | MIXED. -/
inductive VoiceSource where
  | site
  | manual
  | mixed
deriving Repr, DecidableEq

/-- Row of the `brands` table (`app/models/db/brand.py`); `uuid4` primary keys
are modelled as natural numbers handed out by the `DBState.nextId` allocator. -/
structure BrandRow where
  id : Nat
  name : String
  canonical_url : Option String
deriving Repr, DecidableEq

/-- Row of the `voice_profiles` table (`app/models/db/voice_profile.py`). -/
structure VoiceProfileRow where
  id : Nat
  brand_id : Nat
  version : Nat
  metrics : List (String × ℚ)
  target_demographic : String
  style_guide : List String
  writing_example : String
  llm_model : String
  source : VoiceSource
deriving Repr, DecidableEq

/-- Row of the `voice_evaluations` table (`app/models/db/voice_profile.py`). -/
structure VoiceEvaluationRow where
  id : Nat
  brand_id : Nat
  voice_profile_id : Nat
  input_text : String
  scores : List (String × ℚ)
  suggestions : List String
deriving Repr, DecidableEq

/-- The whole relational store plus the fresh-id allocator standing in for
`uuid.uuid4` (ids are assumed collision free, which the allocator makes exact). -/
structure DBState where
  brands : List BrandRow
  voice_profiles : List VoiceProfileRow
  voice_evaluations : List VoiceEvaluationRow
  nextId : Nat
deriving Repr, DecidableEq

/-- `VoiceProfileInputs` request model (`app/models/voice.py`). -/
structure VoiceProfileInputs where
  urls : Option (List String)
  writing_samples : Option (List String)
deriving Repr, DecidableEq

/-- `CreateVoiceProfileRequest` request model (`app/models/voice.py`). -/
structure CreateVoiceProfileRequest where
  inputs : VoiceProfileInputs
  llm_model : String
deriving Repr, DecidableEq

/-- `CreateBrandRequest` request model (`app/models/brand.py`). -/
structure CreateBrandRequest where
  name : String
  canonical_url : String
deriving Repr, DecidableEq

/-- `Brand` pydantic model (`app/models/brand.py`) as returned by the services. -/
structure Brand where
  id : Nat
  name : String
  canonical_url : Option String
deriving Repr, DecidableEq

/-! ## SHA-256 over `Nat`, for the stub's `_deterministic_score`

Faithful embedding of the `hashlib.sha256` digest used in `app/llm/stub.py`:
32-bit words are naturals reduced modulo `2 ^ 32`. -/

/-- `2 ^ 32`, the word modulus of SHA-256. -/
def M32 : Nat := 4294967296

/-- Right rotation of a 32-bit word. -/
def rotr32 (n x : Nat) : Nat := (x / 2 ^ n + x % 2 ^ n * 2 ^ (32 - n)) % M32

/-- Logical right shift of a 32-bit word. -/
def shr32 (n x : Nat) : Nat := x / 2 ^ n

/-- SHA-256 small sigma 0. -/
def ssig0 (x : Nat) : Nat := rotr32 7 x ^^^ rotr32 18 x ^^^ shr32 3 x

/-- SHA-256 small sigma 1. -/
def ssig1 (x : Nat) : Nat := rotr32 17 x ^^^ rotr32 19 x ^^^ shr32 10 x

/-- SHA-256 big sigma 0. -/
def bsig0 (x : Nat) : Nat := rotr32 2 x ^^^ rotr32 13 x ^^^ rotr32 22 x

/-- SHA-256 big sigma 1. -/
def bsig1 (x : Nat) : Nat := rotr32 6 x ^^^ rotr32 11 x ^^^ rotr32 25 x

/-- SHA-256 choice function. -/
def chf (x y z : Nat) : Nat := (x &&& y) ^^^ ((x ^^^ 4294967295) &&& z)

/-- SHA-256 majority function. -/
def majf (x y z : Nat) : Nat := (x &&& y) ^^^ (x &&& z) ^^^ (y &&& z)

/-- The 64 SHA-256 round constants. -/
def K256 : List Nat :=
  [1116352408, 1899447441, 3049323471, 3921009573, 961987163, 1508970993,
   2453635748, 2870763221, 3624381080, 310598401, 607225278, 1426881987,
   1925078388, 2162078206, 2614888103, 3248222580, 3835390401, 4022224774,
   264347078, 604807628, 770255983, 1249150122, 1555081692, 1996064986,
   2554220882, 2821834349, 2952996808, 3210313671, 3336571891, 3584528711,
   113926993, 338241895, 666307205, 773529912, 1294757372, 1396182291,
   1695183700, 1986661051, 2177026350, 2456956037, 2730485921, 2820302411,
   3259730800, 3345764771, 3516065817, 3600352804, 4094571909, 275423344,
   430227734, 506948616, 659060556, 883997877, 958139571, 1322822218,
   1537002063, 1747873779, 1955562222, 2024104815, 2227730452, 2361852424,
   2428436474, 2756734187, 3204031479, 3329325298]

/-- The 8 initial SHA-256 hash words. -/
def H256 : List Nat :=
  [1779033703, 3144134277, 1013904242, 2773480762, 1359893119, 2600822924,
   528734635, 1541459225]

/-- Big-endian split of a natural number into `n` bytes. -/
def beBytes : Nat → Nat → List Nat
  | 0, _ => []
  | n + 1, v => beBytes n (v / 256) ++ [v % 256]

/-- SHA-256 message padding: `0x80`, zeros, then the 64-bit bit length. -/
def padMessage (msg : List Nat) : List Nat :=
  let l := msg.length
  let zeros := (64 - (l + 9) % 64) % 64
  msg ++ [128] ++ List.replicate zeros 0 ++ beBytes 8 (l * 8)

/-- Group a byte list into big-endian 32-bit words. -/
def bytesToWords : List Nat → List Nat
  | b0 :: b1 :: b2 :: b3 :: rest =>
      (((b0 * 256 + b1) * 256 + b2) * 256 + b3) :: bytesToWords rest
  | _ => []

/-- Extend the 16 chunk words to the 64-entry message schedule. -/
def extendSchedule (w : List Nat) : List Nat :=
  (List.range 48).foldl
    (fun w i =>
      w ++ [(ssig1 (w.getD (i + 14) 0) + w.getD (i + 9) 0 +
             ssig0 (w.getD (i + 1) 0) + w.getD i 0) % M32])
    w

/-- One SHA-256 round on the working state `[a, b, c, d, e, f, g, h]`. -/
def sha256Round (st : List Nat) (kw : Nat × Nat) : List Nat :=
  match st with
  | [a, b, c, d, e, f, g, h] =>
      let t1 := (h + bsig1 e + chf e f g + kw.1 + kw.2) % M32
      let t2 := (bsig0 a + majf a b c) % M32
      [(t1 + t2) % M32, a, b, c, (d + t1) % M32, e, f, g]
  | _ => st

/-- Process one 64-byte chunk against the running hash words. -/
def processChunk (h : List Nat) (chunk : List Nat) : List Nat :=
  let ws := extendSchedule (bytesToWords chunk)
  let st := (K256.zip ws).foldl sha256Round h
  List.zipWith (fun x y => (x + y) % M32) h st

/-- SHA-256 digest of a byte list, as the list of 8 hash words. -/
def sha256Words (msg : List Nat) : List Nat :=
  let padded := padMessage msg
  (List.range (padded.length / 64)).foldl
    (fun h i => processChunk h ((padded.drop (64 * i)).take 64))
    H256

/-- UTF-8 bytes of a string, the effect of Python's `str.encode()`. -/
def utf8Bytes (s : String) : List Nat := s.toUTF8.toList.map (fun b => b.toNat)

/-- `int(hexdigest[:8], 16)`: the first 8 hex digits of the digest are exactly
the first (big-endian, zero-padded) 32-bit hash word. -/
def sha256FirstWord (s : String) : Nat := (sha256Words (utf8Bytes s)).headD 0

/-- Python 3 `round` to an integer: round half to even over exact rationals. -/
def roundHalfEven (q : ℚ) : ℤ :=
  if q - ⌊q⌋ < 1 / 2 then ⌊q⌋
  else if q - ⌊q⌋ > 1 / 2 then ⌊q⌋ + 1
  else if ⌊q⌋ % 2 = 0 then ⌊q⌋ else ⌊q⌋ + 1

/-- Python `round(x, 2)` over exact rationals. -/
def pyRound2 (q : ℚ) : ℚ := (roundHalfEven (q * 100) : ℚ) / 100

/-! ## The deterministic stub (`app/llm/stub.py`) -/

/-- `StubLLM._deterministic_score`:
`round(int(sha256(seed.encode()).hexdigest()[:8], 16) / 0xFFFFFFFF, 2)`,
with the float arithmetic carried out over exact rationals. -/
def deterministic_score (seed : String) : ℚ :=
  pyRound2 ((sha256FirstWord seed : ℚ) / 4294967295)

/-- Python truthiness of an `Optional[str]`: `None` and `""` are falsy. -/
def truthyStr : Option String → Bool
  | none => false
  | some s => !(s == "")

/-- Python truthiness of an `Optional[list]`: `None` and `[]` are falsy. -/
def truthyList : Option (List String) → Bool
  | none => false
  | some l => !l.isEmpty

/-- Python `" ".join(l)`. -/
def joinSpace : List String → String
  | [] => ""
  | [x] => x
  | x :: y :: xs => x ++ " " ++ joinSpace (y :: xs)

/-- The profile content produced by an LLM backend (the `VoiceProfile`
pydantic value a backend returns before the service overwrites its version;
its `uuid4` id is drawn from the allocator at persist time). -/
structure GenProfile where
  brand_id : Nat
  version : Nat
  metrics : List (String × ℚ)
  target_demographic : String
  style_guide : List String
  writing_example : String
  llm_model : String
  source : VoiceSource
deriving Repr, DecidableEq

/-- `StubLLM.generate_voice_profile` (`app/llm/stub.py` lines 20-54). -/
def StubLLM.generate_voice_profile (brand : BrandRow) (site_text : Option String)
    (samples : Option (List String)) : GenProfile :=
  let seed_text := site_text.getD "" ++ joinSpace (samples.getD [])
  let voice_source :=
    if truthyStr site_text && truthyList samples then VoiceSource.mixed
    else if truthyStr site_text then VoiceSource.site
    else VoiceSource.manual
  { brand_id := brand.id
    version := 1
    metrics :=
      [("warmth", deterministic_score (seed_text ++ "warmth")),
       ("seriousness", deterministic_score (seed_text ++ "seriousness")),
       ("technicality", deterministic_score (seed_text ++ "technicality")),
       ("formality", deterministic_score (seed_text ++ "formality")),
       ("playfulness", deterministic_score (seed_text ++ "playfulness"))]
    target_demographic := s!"Deterministic demographic for {brand.name}"
    style_guide := [s!"Always mention {brand.name}", "Keep sentences short"]
    writing_example := s!"This is a sample writing style for {brand.name}."
    llm_model := "stub-llm"
    source := voice_source }

/-- The evaluation content an LLM backend returns (`VoiceEvaluation` minus the
server-assigned id and timestamps). -/
structure EvalContent where
  brand_id : Nat
  voice_profile_id : Nat
  input_text : String
  scores : List (String × ℚ)
  suggestions : List String
deriving Repr, DecidableEq

/-- `StubLLM.evaluate_text` (`app/llm/stub.py` lines 56-75). -/
def StubLLM.evaluate_text (voice : VoiceProfileRow) (text : String) : EvalContent :=
  { brand_id := voice.brand_id
    voice_profile_id := voice.id
    input_text := text
    scores := voice.metrics.map (fun kv => (kv.1, deterministic_score (text ++ kv.1)))
    suggestions := voice.metrics.map (fun kv => "Consider adjusting " ++ kv.1 ++ " tone.") }

/-! ## The real-provider adapter (`app/llm/provider.py`)

The Cohere client and `json.loads` are external collaborators: the chat
response is a `ChatResponse` value and JSON parsing is a function parameter;
`parse _ = none` covers both `json.JSONDecodeError` and the pydantic
validation failure caught by the generic `except Exception` branch. -/

/-- The fields of the provider chat response the adapter reads:
`finish_reason` and the list of message content texts. -/
structure ChatResponse where
  finish_reason : String
  content : List String
deriving Repr, DecidableEq

/-- `llm_response.message.content[0].text if llm_response.message.content else ""`. -/
def responseText (resp : ChatResponse) : String := resp.content.headD ""

/-- The five metric scores of `VoiceProfileMetrics` (`app/models/voice.py`). -/
structure Metrics5 where
  warmth : ℚ
  seriousness : ℚ
  technicality : ℚ
  formality : ℚ
  playfulness : ℚ
deriving Repr, DecidableEq

/-- A successfully parsed and validated `VoiceProfileResponseLLM` payload. -/
structure GenJson where
  metrics : Metrics5
  target_demographic : String
  style_guide : List String
  writing_example : String
deriving Repr, DecidableEq

/-- What `json.loads` plus the two `.get` calls yield in
`ProviderLLM.evaluate_text`: each key may be absent. -/
structure EvalJson where
  scores : Option (List (String × ℚ))
  suggestions : Option (List String)
deriving Repr, DecidableEq

/-- `ProviderLLM.generate_voice_profile` (`app/llm/provider.py` lines 26-134):
on a non-`COMPLETE` finish reason or an unparseable/invalid payload the
function falls off the end and implicitly returns `None`. -/
def ProviderLLM.generate_voice_profile (parse : String → Option GenJson)
    (resp : ChatResponse) (brand : BrandRow) (model : String) : Option GenProfile :=
  let voice_profile :=
    if resp.finish_reason == "COMPLETE" then parse (responseText resp) else none
  match voice_profile with
  | some vp =>
      some
        { brand_id := brand.id
          version := 1
          metrics :=
            [("warmth", vp.metrics.warmth),
             ("seriousness", vp.metrics.seriousness),
             ("technicality", vp.metrics.technicality),
             ("formality", vp.metrics.formality),
             ("playfulness", vp.metrics.playfulness)]
          target_demographic := vp.target_demographic
          style_guide := vp.style_guide
          writing_example := vp.writing_example
          llm_model := model
          source := VoiceSource.mixed }
  | none => none

/-- The hard-coded default scores of `ProviderLLM.evaluate_text`. -/
def default_scores : List (String × ℚ) :=
  [("warmth", 1 / 2), ("seriousness", 1 / 2), ("technicality", 1 / 2),
   ("formality", 1 / 2), ("playfulness", 1 / 2)]

/-- The hard-coded default suggestion list of `ProviderLLM.evaluate_text`. -/
def default_suggestions : List String :=
  ["Review the text against the brand's style guide"]

/-- Python dict lookup on the assoc-list model of the scores dict. -/
def lookupScore (scores : List (String × ℚ)) (k : String) : Option ℚ :=
  (scores.find? (fun kv => kv.1 == k)).map (fun kv => kv.2)

/-- Python dict assignment `scores[k] = v`: overwrite in place or append. -/
def setScore (scores : List (String × ℚ)) (k : String) (v : ℚ) : List (String × ℚ) :=
  if (scores.find? (fun kv => kv.1 == k)).isSome then
    scores.map (fun kv => if kv.1 == k then (k, v) else kv)
  else scores ++ [(k, v)]

/-- The metric names iterated by the repair loop in `ProviderLLM.evaluate_text`. -/
def metricNames : List String :=
  ["warmth", "seriousness", "technicality", "formality", "playfulness"]

/-- `max(0.0, min(1.0, x))`. -/
def clamp01 (q : ℚ) : ℚ := max 0 (min 1 q)

/-- The `for metric in [...]` loop of `ProviderLLM.evaluate_text`: fill each
missing metric with `0.5` and clamp each named metric into `[0, 1]`. -/
def ensureMetrics (scores : List (String × ℚ)) : List (String × ℚ) :=
  metricNames.foldl
    (fun sc m =>
      let v := match lookupScore sc m with
        | none => 1 / 2
        | some x => x
      setScore sc m (clamp01 v))
    scores

/-- `ProviderLLM.evaluate_text` (`app/llm/provider.py` lines 137-268): every
failure branch substitutes `default_scores`/`default_suggestions` and still
returns a `VoiceEvaluation`. -/
def ProviderLLM.evaluate_text (parse : String → Option EvalJson)
    (resp : ChatResponse) (voice : VoiceProfileRow) (text : String) : EvalContent :=
  let sp : List (String × ℚ) × List String :=
    if resp.finish_reason == "COMPLETE" then
      match parse (responseText resp) with
      | none => (default_scores, default_suggestions)
      | some j =>
          let scores := j.scores.getD default_scores
          let suggestions := j.suggestions.getD default_suggestions
          (ensureMetrics scores, suggestions)
    else (default_scores, default_suggestions)
  { brand_id := voice.brand_id
    voice_profile_id := voice.id
    input_text := text
    scores := sp.1
    suggestions := sp.2 }

/-! ## Page fetching (`app/tool.py`) -/

/-- `fetch_page_text` (`app/tool.py`): the network round trip and the
BeautifulSoup text extraction are one collaborator `net`; a
`requests.RequestException` (`Except.error`) is swallowed and turned into the
string `"Error fetching <url>: <e>"` returned as if it were page text. -/
def fetch_page_text (net : String → Except String String) (url : String) : String :=
  match net url with
  | .ok text => text
  | .error e => "Error fetching " ++ url ++ ": " ++ e

/-! ## The voice service (`app/services/voice_service.py`) -/

/-- The type of an LLM backend's generate operation as the service calls it:
brand row, joined site text, writing samples; `none` models `ProviderLLM`
returning `None` after a failed call. -/
def LLMGen : Type := BrandRow → String → List String → Option GenProfile

/-- Fold step selecting the row with the larger version (first one on ties). -/
def maxStep (acc : Option VoiceProfileRow) (p : VoiceProfileRow) :
    Option VoiceProfileRow :=
  match acc with
  | none => some p
  | some q => if q.version < p.version then some p else some q

/-- The query `db.query(VoiceProfileDB).filter(brand_id == ...).order_by(desc(version)).first()`:
the stored profile of that brand with the highest version. -/
def latest_voice (profiles : List VoiceProfileRow) (brand_id : Nat) :
    Option VoiceProfileRow :=
  (profiles.filter (fun p => p.brand_id == brand_id)).foldl maxStep none

/-- `next_version = 1 if latest_voice is None else latest_voice.version + 1`
(`voice_service.py` line 39). -/
def next_version (s : DBState) (brand_id : Nat) : Nat :=
  match latest_voice s.voice_profiles brand_id with
  | none => 1
  | some v => v.version + 1

/-- Outcome of `VoiceService.generate_voice_profile`: a `success=True`
response, the `success=False` brand-not-found response, or the uncaught
`AttributeError` raised by `voice_profile.version = next_version` when the
provider returned `None`. -/
inductive ServiceGenResult where
  | ok (vp : VoiceProfileRow)
  | brandMissing (msg : String)
  | attrError
deriving Repr, DecidableEq

/-- The `VoiceProfileDB` row `VoiceService.generate_voice_profile` persists
(`voice_service.py` lines 61-71): the gateway's profile content with the
version overwritten by the computed `next_version` and a fresh `uuid4` id. -/
def persistedRow (s : DBState) (brand_id : Nat) (g : GenProfile) : VoiceProfileRow :=
  { id := s.nextId
    brand_id := g.brand_id
    version := next_version s brand_id
    metrics := g.metrics
    target_demographic := g.target_demographic
    style_guide := g.style_guide
    writing_example := g.writing_example
    llm_model := g.llm_model
    source := g.source }

/-- `VoiceService.generate_voice_profile` (`voice_service.py` lines 22-81):
resolve the brand, compute the next version, scrape the urls, call the LLM
backend, overwrite the returned version with the computed one, persist. -/
def generate_voice_profile (net : String → Except String String) (llm : LLMGen)
    (s : DBState) (brand_id : Nat) (req : CreateVoiceProfileRequest) :
    ServiceGenResult × DBState :=
  match s.brands.find? (fun b => b.id == brand_id) with
  | none => (.brandMissing s!"Brand with id {brand_id} not found", s)
  | some brand =>
    match llm brand
        (joinSpace ((req.inputs.urls.getD []).map (fetch_page_text net)))
        (req.inputs.writing_samples.getD []) with
    | none => (.attrError, s)
    | some g =>
      (.ok (persistedRow s brand_id g),
       { s with
          voice_profiles := s.voice_profiles ++ [persistedRow s brand_id g]
          nextId := s.nextId + 1 })

/-- `VoiceService.get_voice_profile_by_version` (`voice_service.py` lines 94-104). -/
def get_voice_profile_by_version (s : DBState) (brand_id version : Nat) :
    Option VoiceProfileRow :=
  s.voice_profiles.find? (fun p => p.brand_id == brand_id && p.version == version)

/-- `VoiceService.get_latest_voice_profile` (`voice_service.py` lines 83-92). -/
def get_latest_voice_profile (s : DBState) (brand_id : Nat) :
    Option VoiceProfileRow :=
  latest_voice s.voice_profiles brand_id

/-! ## The brand service (`app/services/brand_service.py`) -/

/-- `BrandService.create_brand` (`brand_service.py` lines 16-35): build the
row with a fresh `uuid4` id, persist, return the stored record. -/
def create_brand (s : DBState) (req : CreateBrandRequest) : Brand × DBState :=
  let db_brand : BrandRow :=
    { id := s.nextId, name := req.name, canonical_url := some req.canonical_url }
  ({ id := db_brand.id, name := db_brand.name, canonical_url := db_brand.canonical_url },
   { s with brands := s.brands ++ [db_brand], nextId := s.nextId + 1 })

/-- `BrandService.get_brand_by_id` (`brand_service.py` lines 53-66). -/
def get_brand_by_id (s : DBState) (brand_id : Nat) : Option Brand :=
  (s.brands.find? (fun b => b.id == brand_id)).map
    (fun b => { id := b.id, name := b.name, canonical_url := b.canonical_url })

/-! ## HTTP routes (`app/routes/voices_router.py`) -/

/-- Result of the generate route: 201 with the created profile, the 404
`HTTPException`, or the unhandled exception surfacing as a server error. -/
inductive GenRouteResult where
  | created (vp : VoiceProfileRow)
  | notFound (msg : String)
  | serverError
deriving Repr, DecidableEq

/-- `generate_voice` route (`voices_router.py` lines 28-45): a
`success=False` service response is raised as 404; an exception from the
service propagates. -/
def generate_voice (net : String → Except String String) (llm : LLMGen)
    (s : DBState) (brand_id : Nat) (req : CreateVoiceProfileRequest) :
    GenRouteResult × DBState :=
  match generate_voice_profile net llm s brand_id req with
  | (.ok vp, s') => (.created vp, s')
  | (.brandMissing msg, s') => (.notFound msg, s')
  | (.attrError, s') => (.serverError, s')

/-- Result of the evaluate route: 201 with the persisted evaluation, or the
404 `HTTPException`. -/
inductive EvalRouteResult where
  | created (ev : VoiceEvaluationRow)
  | notFound (msg : String)
deriving Repr, DecidableEq

/-- `evaluate_voice` route (`voices_router.py` lines 91-127): look up the
exact (brand_id, version) profile, 404 when absent, otherwise evaluate via
the backend and persist a `VoiceEvaluationDB` row. -/
def evaluate_voice (llmEval : VoiceProfileRow → String → EvalContent)
    (s : DBState) (brand_id version : Nat) (text : String) :
    EvalRouteResult × DBState :=
  match get_voice_profile_by_version s brand_id version with
  | none =>
      (.notFound s!"Voice profile version {version} not found for this brand", s)
  | some vp =>
      let ev := llmEval vp text
      let row : VoiceEvaluationRow :=
        { id := s.nextId
          brand_id := brand_id
          voice_profile_id := vp.id
          input_text := text
          scores := ev.scores
          suggestions := ev.suggestions }
      (.created row,
       { s with
          voice_evaluations := s.voice_evaluations ++ [row]
          nextId := s.nextId + 1 })

/-! ## Backend selection (`voice_service.py` lines 49 and 116) -/

/-- The two LLM backends behind `LLMPort`. -/
inductive LLMBackend where
  | stub
  | provider
deriving Repr, DecidableEq

/-- The backend `VoiceService` instantiates, as a function of the
`USE_STUB_LLM` configuration flag: the source
(`llm: LLMPort = ProviderLLM(...)`, lines 49 and 116) constructs
`ProviderLLM` unconditionally and never reads the flag. -/
def selectedBackend (_use_stub_llm : Bool) : LLMBackend := LLMBackend.provider

/-- Modelled from the spec: the backend selection the spec (§6 configuration
surface, §9 interchangeable backends) and the unit tests
(`tests/unit/test_voice_service.py`, `VoiceService._get_llm_instance`)
describe — the deterministic stub exactly when the flag is set. -/
def specSelectedBackend (use_stub_llm : Bool) : LLMBackend :=
  if use_stub_llm then LLMBackend.stub else LLMBackend.provider

/-! ## Shared concrete values used by witnesses and counterexamples -/

/-- A stored brand used by concrete instances. -/
def brand0 : BrandRow := { id := 0, name := "Acme", canonical_url := some "https://acme.com" }

/-- A database holding exactly `brand0` and no profiles. -/
def s0 : DBState := { brands := [brand0], voice_profiles := [], voice_evaluations := [], nextId := 1 }

/-- The empty database. -/
def sEmpty : DBState := { brands := [], voice_profiles := [], voice_evaluations := [], nextId := 0 }

/-- A generation request carrying one writing sample and no urls. -/
def req0 : CreateVoiceProfileRequest :=
  { inputs := { urls := none, writing_samples := some ["Hi there, friend!"] },
    llm_model := "command-r" }

/-- A network collaborator that always serves the same page text. -/
def net0 : String → Except String String := fun _ => Except.ok "Acme page text"

/-- The stub backend in the shape the service calls it
(`site_text` and `samples` are always given). -/
def stubGen : LLMGen := fun b st sp => some (StubLLM.generate_voice_profile b (some st) (some sp))

/-- A provider backend whose underlying call failed: `generate_voice_profile`
returned `None`. -/
def llmFail : LLMGen := fun _ _ _ => none

/-- A chat response whose finish reason is not `COMPLETE`. -/
def respIncomplete : ChatResponse := { finish_reason := "MAX_TOKENS", content := [] }

/-- A JSON parser that always fails (`json.JSONDecodeError`). -/
def parseNone : String → Option EvalJson := fun _ => none

/-- A profile-payload parser that always fails. -/
def parseGenNone : String → Option GenJson := fun _ => none

/-- A gateway that echoes the passed brand's id, returning a fixed profile
content whose own version field is 7. -/
def gEcho (b : BrandRow) : GenProfile :=
  { brand_id := b.id, version := 7, metrics := [],
    target_demographic := "d", style_guide := [], writing_example := "w",
    llm_model := "m", source := VoiceSource.manual }

/-- An always-successful backend built from `gEcho`. -/
def llmEcho : LLMGen := fun b _ _ => some (gEcho b)

/-- A network collaborator on which every request fails. -/
def netErr : String → Except String String :=
  fun _ => Except.error "connection refused"

/-- A generation request naming one unreachable url. -/
def reqUrl : CreateVoiceProfileRequest :=
  { inputs := { urls := some ["https://down.example"], writing_samples := none },
    llm_model := "command-r" }

/-- A stored voice profile used by concrete instances. -/
def voiceRow0 : VoiceProfileRow :=
  { id := 1, brand_id := 0, version := 1,
    metrics := [("warmth", 1 / 2), ("seriousness", 1 / 2), ("technicality", 1 / 2),
                ("formality", 1 / 2), ("playfulness", 1 / 2)],
    target_demographic := "Young adults", style_guide := ["Keep sentences short"],
    writing_example := "Sample.", llm_model := "command-r", source := VoiceSource.manual }

/-! ## Spec-side observables -/

/-- The versions stored for a brand, the spec's view of "existing voice
profiles of that brand". -/
def brandVersions (s : DBState) (brand_id : Nat) : List Nat :=
  (s.voice_profiles.filter (fun p => p.brand_id == brand_id)).map
    (fun p => p.version)

/-- The `(brand_id, version)` pairs of all stored voice profiles. -/
def profilePairs (s : DBState) : List (Nat × Nat) :=
  s.voice_profiles.map (fun p => (p.brand_id, p.version))

/-- The contract both `LLMPort` implementations satisfy: the returned profile
carries the id of the brand that was passed in (`stub.py` line 43,
`provider.py` line 124). -/
def GatewayContract (llm : LLMGen) : Prop :=
  ∀ b st sp g, llm b st sp = some g → g.brand_id = b.id

/-- `sub` occurs contiguously inside `s`. -/
def strContains (s sub : String) : Prop := ∃ pre post, s = pre ++ sub ++ post

/-- All brand ids in the store were handed out by the allocator, the exact
form of "uuid4 ids do not collide with stored ones". -/
def brandIdsFresh (s : DBState) : Prop := ∀ b ∈ s.brands, b.id < s.nextId

/-! ## Helper lemmas -/

/-- A fold preserves any invariant its step preserves. -/
theorem foldl_preserve {α β : Type} (P : β → Prop) (f : β → α → β) :
    ∀ (l : List α) (init : β), P init → (∀ acc x, P acc → P (f acc x)) →
      P (l.foldl f init) := by
  intro l
  induction l with
  | nil => intro init h _; exact h
  | cons a t ih => intro init h hstep; exact ih (f init a) (hstep init a h) hstep

/-- Every entry of the word-wise modular sum is reduced below `M32`. -/
theorem zipWith_mod_lt (l1 l2 : List Nat) :
    ∀ w ∈ List.zipWith (fun x y => (x + y) % M32) l1 l2, w < M32 := by
  induction l1 generalizing l2 with
  | nil => intro w hw; simp at hw
  | cons a t ih =>
    cases l2 with
    | nil => intro w hw; simp at hw
    | cons b u =>
      intro w hw
      rcases List.mem_cons.mp hw with h | h
      · subst h; exact Nat.mod_lt _ (by decide)
      · exact ih u w h

/-- Every word of a SHA-256 digest is below `2 ^ 32`. -/
theorem sha256Words_lt (msg : List Nat) : ∀ w ∈ sha256Words msg, w < M32 := by
  unfold sha256Words
  apply foldl_preserve (fun h => ∀ w ∈ h, w < M32)
  · intro w hw
    fin_cases hw <;> decide
  · intro acc i _ w hw
    exact zipWith_mod_lt _ _ w hw

/-- The first 8 hex digits of a digest decode to a value at most `0xFFFFFFFF`. -/
theorem sha256FirstWord_le (s : String) : sha256FirstWord s ≤ 4294967295 := by
  unfold sha256FirstWord
  cases hw : sha256Words (utf8Bytes s) with
  | nil => simp [List.headD]
  | cons a t =>
    have ha : a < M32 := by
      have := sha256Words_lt (utf8Bytes s) a
      rw [hw] at this
      exact this (List.mem_cons_self a t)
    simpa [List.headD, M32] using Nat.lt_succ_iff.mp (by simpa [M32] using ha)

/-- Round-half-even never goes below a lower bound of its argument. -/
theorem roundHalfEven_nonneg (q : ℚ) (hq : 0 ≤ q) : 0 ≤ roundHalfEven q := by
  have hf : (0 : ℤ) ≤ ⌊q⌋ := Int.floor_nonneg.mpr hq
  unfold roundHalfEven
  split
  · exact hf
  · split
    · omega
    · split <;> omega

/-- Round-half-even never exceeds an integer upper bound of its argument. -/
theorem roundHalfEven_le (q : ℚ) (B : ℤ) (hq : q ≤ B) : roundHalfEven q ≤ B := by
  have hfB : ⌊q⌋ ≤ B := by
    have := Int.floor_le_floor hq
    simpa using this
  unfold roundHalfEven
  split
  · exact hfB
  · rename_i h1
    have h1' : (1 : ℚ) / 2 ≤ q - ⌊q⌋ := not_lt.mp h1
    split
    · rename_i h2
      have h2' : (1 : ℚ) / 2 < q - ⌊q⌋ := h2
      have hlt : (⌊q⌋ : ℚ) < (B : ℚ) := by linarith
      have : ⌊q⌋ < B := by exact_mod_cast hlt
      omega
    · rename_i h2
      have h2' : q - ⌊q⌋ ≤ (1 : ℚ) / 2 := not_lt.mp h2
      have heq : q - ⌊q⌋ = (1 : ℚ) / 2 := le_antisymm h2' h1'
      have hlt : (⌊q⌋ : ℚ) < (B : ℚ) := by linarith
      have hZ : ⌊q⌋ < B := by exact_mod_cast hlt
      split <;> omega

/-- `round(x, 2)` keeps the closed interval `[0, 1]` stable. -/
theorem pyRound2_mem_unit (q : ℚ) (h0 : 0 ≤ q) (h1 : q ≤ 1) :
    0 ≤ pyRound2 q ∧ pyRound2 q ≤ 1 := by
  have hlow : 0 ≤ roundHalfEven (q * 100) := roundHalfEven_nonneg _ (by linarith)
  have hhigh : roundHalfEven (q * 100) ≤ 100 := by
    apply roundHalfEven_le
    push_cast
    linarith
  unfold pyRound2
  constructor
  · positivity
  · rw [div_le_one (by norm_num)]
    exact_mod_cast hhigh

/-- A `maxStep` fold starting from `some` never returns `none`; from `none` it
returns `none` only on the empty list. -/
theorem foldl_maxStep_eq_none (l : List VoiceProfileRow) :
    ∀ acc, l.foldl maxStep acc = none → acc = none ∧ l = [] := by
  induction l with
  | nil => intro acc h; exact ⟨h, rfl⟩
  | cons a t ih =>
    intro acc h
    rcases ih (maxStep acc a) h with ⟨hstep, -⟩
    cases acc with
    | none => simp [maxStep] at hstep
    | some q => simp only [maxStep] at hstep; split at hstep <;> simp at hstep

/-- The row a `maxStep` fold returns comes from the list or the accumulator. -/
theorem foldl_maxStep_mem (l : List VoiceProfileRow) :
    ∀ acc m, l.foldl maxStep acc = some m → acc = some m ∨ m ∈ l := by
  induction l with
  | nil => intro acc m h; exact Or.inl h
  | cons a t ih =>
    intro acc m h
    rcases ih (maxStep acc a) m h with hstep | hmem
    · cases acc with
      | none =>
        simp only [maxStep] at hstep
        exact Or.inr (by simp [← Option.some_inj.mp hstep])
      | some q =>
        simp only [maxStep] at hstep
        split at hstep
        · exact Or.inr (by simp [← Option.some_inj.mp hstep])
        · exact Or.inl hstep
    · exact Or.inr (List.mem_cons_of_mem a hmem)

/-- The row a `maxStep` fold returns has the maximal version among the list
and the accumulator. -/
theorem foldl_maxStep_ge (l : List VoiceProfileRow) :
    ∀ acc m, l.foldl maxStep acc = some m →
      (∀ p ∈ l, p.version ≤ m.version) ∧
      (∀ q, acc = some q → q.version ≤ m.version) := by
  induction l with
  | nil =>
    intro acc m h
    refine ⟨by simp, fun q hq => ?_⟩
    rw [hq] at h
    rw [Option.some_inj.mp h]
  | cons a t ih =>
    intro acc m h
    rcases ih (maxStep acc a) m h with ⟨htail, hacc⟩
    have hstep : ∀ r, maxStep acc a = some r → r.version ≤ m.version := hacc
    have ha : a.version ≤ m.version := by
      cases hacc2 : acc with
      | none => exact hstep a (by simp [maxStep, hacc2])
      | some q =>
        by_cases hv : q.version < a.version
        · exact hstep a (by simp [maxStep, hacc2, hv])
        · have hq : q.version ≤ m.version := hstep q (by simp [maxStep, hacc2, hv])
          omega
    refine ⟨fun p hp => ?_, fun q hq => ?_⟩
    · rcases List.mem_cons.mp hp with h | h
      · rw [h]; exact ha
      · exact htail p h
    · cases hacc2 : acc with
      | none => rw [hacc2] at hq; cases hq
      | some r =>
        rw [hacc2] at hq
        have hr : r = q := Option.some_inj.mp hq
        subst hr
        by_cases hv : r.version < a.version
        · have := hstep a (by simp [maxStep, hacc2, hv])
          omega
        · exact hstep r (by simp [maxStep, hacc2, hv])

/-- `latest_voice` returns `none` exactly when the brand has no profiles. -/
theorem latest_voice_none (profiles : List VoiceProfileRow) (brand_id : Nat)
    (h : latest_voice profiles brand_id = none) :
    profiles.filter (fun p => p.brand_id == brand_id) = [] :=
  (foldl_maxStep_eq_none _ none h).2

/-- The profile `latest_voice` returns is a stored profile of that brand with
the maximal stored version for that brand. -/
theorem latest_voice_some (profiles : List VoiceProfileRow) (brand_id : Nat)
    (m : VoiceProfileRow) (h : latest_voice profiles brand_id = some m) :
    m ∈ profiles.filter (fun p => p.brand_id == brand_id) ∧
    ∀ p ∈ profiles.filter (fun p => p.brand_id == brand_id),
      p.version ≤ m.version := by
  refine ⟨?_, (foldl_maxStep_ge _ none m h).1⟩
  rcases foldl_maxStep_mem _ none m h with hacc | hmem
  · cases hacc
  · exact hmem

/-- Elimination principle for a successful `generate_voice_profile` run. -/
theorem generate_ok_elim (net : String → Except String String) (llm : LLMGen)
    (s : DBState) (brand_id : Nat) (req : CreateVoiceProfileRequest)
    (vp : VoiceProfileRow) (s' : DBState)
    (hg : generate_voice_profile net llm s brand_id req = (.ok vp, s')) :
    ∃ brand g,
      s.brands.find? (fun b => b.id == brand_id) = some brand ∧
      llm brand (joinSpace ((req.inputs.urls.getD []).map (fetch_page_text net)))
          (req.inputs.writing_samples.getD []) = some g ∧
      vp = persistedRow s brand_id g ∧
      s' = { s with
              voice_profiles := s.voice_profiles ++ [persistedRow s brand_id g]
              nextId := s.nextId + 1 } := by
  unfold generate_voice_profile at hg
  cases hfind : s.brands.find? (fun b => b.id == brand_id) with
  | none => rw [hfind] at hg; simp at hg
  | some brand =>
    rw [hfind] at hg
    simp only [] at hg
    cases hllm : llm brand
        (joinSpace ((req.inputs.urls.getD []).map (fetch_page_text net)))
        (req.inputs.writing_samples.getD []) with
    | none => rw [hllm] at hg; simp at hg
    | some g =>
      rw [hllm] at hg
      simp only [Prod.mk.injEq, ServiceGenResult.ok.injEq] at hg
      exact ⟨brand, g, rfl, hllm, hg.1.symm, hg.2.symm⟩

/-- When the brand is absent, `generate_voice_profile` returns the
`success=False` response and leaves the store unchanged. -/
theorem generate_brand_missing (net : String → Except String String)
    (llm : LLMGen) (s : DBState) (brand_id : Nat)
    (req : CreateVoiceProfileRequest)
    (h : s.brands.find? (fun b => b.id == brand_id) = none) :
    generate_voice_profile net llm s brand_id req =
      (.brandMissing s!"Brand with id {brand_id} not found", s) := by
  unfold generate_voice_profile
  rw [h]

/-- When the backend returns `None`, `generate_voice_profile` raises
(`AttributeError`) and leaves the store unchanged. -/
theorem generate_attr_error (net : String → Except String String)
    (llm : LLMGen) (s : DBState) (brand_id : Nat)
    (req : CreateVoiceProfileRequest) (brand : BrandRow)
    (hb : s.brands.find? (fun b => b.id == brand_id) = some brand)
    (hl : llm brand (joinSpace ((req.inputs.urls.getD []).map (fetch_page_text net)))
        (req.inputs.writing_samples.getD []) = none) :
    generate_voice_profile net llm s brand_id req = (.attrError, s) := by
  unfold generate_voice_profile
  rw [hb]
  simp only []
  rw [hl]

/-- Any `generate_voice_profile` run has one of the three outcome shapes. -/
theorem generate_shape (net : String → Except String String) (llm : LLMGen)
    (s : DBState) (brand_id : Nat) (req : CreateVoiceProfileRequest) :
    (∃ msg, generate_voice_profile net llm s brand_id req = (.brandMissing msg, s)) ∨
    generate_voice_profile net llm s brand_id req = (.attrError, s) ∨
    (∃ brand g,
      s.brands.find? (fun b => b.id == brand_id) = some brand ∧
      llm brand (joinSpace ((req.inputs.urls.getD []).map (fetch_page_text net)))
          (req.inputs.writing_samples.getD []) = some g ∧
      generate_voice_profile net llm s brand_id req =
        (.ok (persistedRow s brand_id g),
         { s with
            voice_profiles := s.voice_profiles ++ [persistedRow s brand_id g]
            nextId := s.nextId + 1 })) := by
  cases hfind : s.brands.find? (fun b => b.id == brand_id) with
  | none =>
    exact Or.inl ⟨_, generate_brand_missing net llm s brand_id req hfind⟩
  | some brand =>
    cases hllm : llm brand
        (joinSpace ((req.inputs.urls.getD []).map (fetch_page_text net)))
        (req.inputs.writing_samples.getD []) with
    | none =>
      exact Or.inr (Or.inl (generate_attr_error net llm s brand_id req brand hfind hllm))
    | some g =>
      refine Or.inr (Or.inr ⟨brand, g, rfl, hllm, ?_⟩)
      unfold generate_voice_profile
      rw [hfind]
      simp only []
      rw [hllm]

/-- Every member of a list occurs contiguously in its space-join. -/
theorem joinSpace_contains (x : String) :
    ∀ l : List String, x ∈ l → strContains (joinSpace l) x := by
  intro l
  induction l with
  | nil => intro h; simp at h
  | cons a t ih =>
    intro hx
    rcases List.mem_cons.mp hx with hxa | hxt
    · subst hxa
      cases t with
      | nil =>
        exact ⟨"", "", by simp [joinSpace, String.append_empty, String.empty_append]⟩
      | cons b u =>
        refine ⟨"", " " ++ joinSpace (b :: u), ?_⟩
        show joinSpace (x :: b :: u) = "" ++ x ++ (" " ++ joinSpace (b :: u))
        simp [joinSpace, String.empty_append, String.append_assoc]
    · cases t with
      | nil => simp at hxt
      | cons b u =>
        obtain ⟨pre, post, hpp⟩ := ih hxt
        refine ⟨a ++ " " ++ pre, post, ?_⟩
        show joinSpace (a :: b :: u) = a ++ " " ++ pre ++ x ++ post
        rw [show joinSpace (a :: b :: u) = a ++ " " ++ joinSpace (b :: u) from rfl, hpp]
        simp [String.append_assoc]


/-! ## Claims -/

/-- C5: the stub's deterministic score is a pure function of its seed string:
for every seed `s`, `deterministic_score s` equals `deterministic_score s` on
every call, and the result always lies in the closed interval `[0, 1]`. -/
theorem c5_deterministic_score_pure_and_bounded (s : String) :
    deterministic_score s = deterministic_score s ∧
    0 ≤ deterministic_score s ∧ deterministic_score s ≤ 1 := by
  refine ⟨rfl, ?_⟩
  have hle : sha256FirstWord s ≤ 4294967295 := sha256FirstWord_le s
  have h0 : (0 : ℚ) ≤ (sha256FirstWord s : ℚ) / 4294967295 := by positivity
  have h1 : (sha256FirstWord s : ℚ) / 4294967295 ≤ 1 := by
    rw [div_le_one (by norm_num)]
    exact_mod_cast hle
  exact pyRound2_mem_unit _ h0 h1

/-- C6: the stub's source tag is determined by input presence: site text and
samples both present yields MIXED, only site text present yields SITE, and
otherwise (samples only, or neither) yields MANUAL — presence being Python
truthiness (`None` and the empty string/list are absent). -/
theorem c6_stub_source_tag (brand : BrandRow) (site_text : Option String)
    (samples : Option (List String)) :
    (truthyStr site_text = true → truthyList samples = true →
      (StubLLM.generate_voice_profile brand site_text samples).source = VoiceSource.mixed) ∧
    (truthyStr site_text = true → truthyList samples = false →
      (StubLLM.generate_voice_profile brand site_text samples).source = VoiceSource.site) ∧
    (truthyStr site_text = false →
      (StubLLM.generate_voice_profile brand site_text samples).source = VoiceSource.manual) := by
  unfold StubLLM.generate_voice_profile
  refine ⟨fun hs hl => ?_, fun hs hl => ?_, fun hs => ?_⟩
  · simp [hs, hl]
  · simp [hs, hl]
  · simp [hs]

/-- Witness for C6: the three source tags at concrete inputs. -/
theorem c6_witness :
    (StubLLM.generate_voice_profile brand0 (some "welcome") (some ["hi"])).source
      = VoiceSource.mixed ∧
    (StubLLM.generate_voice_profile brand0 (some "welcome") none).source
      = VoiceSource.site ∧
    (StubLLM.generate_voice_profile brand0 none (some ["hi"])).source
      = VoiceSource.manual :=
  ⟨(c6_stub_source_tag brand0 (some "welcome") (some ["hi"])).1 (by decide) (by decide),
   (c6_stub_source_tag brand0 (some "welcome") none).2.1 (by decide) rfl,
   (c6_stub_source_tag brand0 none (some ["hi"])).2.2 rfl⟩

/-- C4 (code bug): the backend used by `VoiceService` is not selected by the
`USE_STUB_LLM` flag — `voice_service.py` lines 49 and 116 construct
`ProviderLLM` unconditionally, so with the flag set the service still uses the
real provider, while the spec and the repository's own unit tests
(`test_voice_service.py`, `_get_llm_instance`) expect the stub. -/
theorem c4_flag_ignored :
    selectedBackend true = LLMBackend.provider ∧
    specSelectedBackend true = LLMBackend.stub ∧
    selectedBackend true ≠ specSelectedBackend true := by
  refine ⟨rfl, rfl, ?_⟩
  intro h
  simp [selectedBackend, specSelectedBackend] at h

/-- Counterexample for C3: for a provider chat response whose finish reason is
not `COMPLETE`, `ProviderLLM.evaluate_text` does not fail — it returns an
evaluation with the hard-coded default scores (0.5 per metric) and the default
suggestion, contradicting "never substitutes default values". -/
theorem c3_counterexample :
    (ProviderLLM.evaluate_text parseNone respIncomplete voiceRow0 "Hello").scores
      = default_scores ∧
    (ProviderLLM.evaluate_text parseNone respIncomplete voiceRow0 "Hello").suggestions
      = default_suggestions ∧
    ProviderLLM.generate_voice_profile parseGenNone respIncomplete brand0 "command-r"
      = none := by
  refine ⟨rfl, rfl, rfl⟩

/-- C3 as amended: on the real-provider path, when the underlying call does
not complete or its content cannot be parsed into the required shape,
`generate_voice_profile` silently returns no profile (Python `None`, no
descriptive error), and `evaluate_text` substitutes the default scores and
default suggestions instead of failing. -/
theorem c3_amended (parseE : String → Option EvalJson)
    (parseG : String → Option GenJson) (resp : ChatResponse)
    (voice : VoiceProfileRow) (text : String) (brand : BrandRow) (model : String)
    (h : resp.finish_reason ≠ "COMPLETE" ∨
      (parseE (responseText resp) = none ∧ parseG (responseText resp) = none)) :
    (ProviderLLM.evaluate_text parseE resp voice text).scores = default_scores ∧
    (ProviderLLM.evaluate_text parseE resp voice text).suggestions = default_suggestions ∧
    ProviderLLM.generate_voice_profile parseG resp brand model = none := by
  unfold ProviderLLM.evaluate_text ProviderLLM.generate_voice_profile
  rcases h with h | ⟨hE, hG⟩
  · have hb : (resp.finish_reason == "COMPLETE") = false := by
      simp [h]
    simp [hb]
  · by_cases hc : resp.finish_reason = "COMPLETE"
    · simp [hc, hE, hG]
    · have hb : (resp.finish_reason == "COMPLETE") = false := by
        simp [hc]
      simp [hb]

/-- Witness for C3 as amended, at the concrete incomplete response. -/
theorem c3_amended_witness :
    (ProviderLLM.evaluate_text parseNone respIncomplete voiceRow0 "Hi").scores
      = default_scores ∧
    (ProviderLLM.evaluate_text parseNone respIncomplete voiceRow0 "Hi").suggestions
      = default_suggestions ∧
    ProviderLLM.generate_voice_profile parseGenNone respIncomplete brand0 "m"
      = none :=
  c3_amended parseNone parseGenNone respIncomplete voiceRow0 "Hi" brand0 "m"
    (Or.inl (by decide))

/-- C7: an evaluation request naming a `(brand_id, version)` pair with no
stored voice profile fails with the 404 not-found response, leaves the store
unchanged (no evaluation record is produced), and never returns a default
evaluation. -/
theorem c7_evaluate_missing_version_404
    (llmEval : VoiceProfileRow → String → EvalContent) (s : DBState)
    (brand_id version : Nat) (text : String)
    (h : get_voice_profile_by_version s brand_id version = none) :
    evaluate_voice llmEval s brand_id version text =
      (.notFound s!"Voice profile version {version} not found for this brand", s) ∧
    (evaluate_voice llmEval s brand_id version text).2.voice_evaluations
      = s.voice_evaluations := by
  unfold evaluate_voice
  rw [h]
  exact ⟨rfl, rfl⟩

/-- Witness for C7: evaluating against the empty store is a 404 and records
nothing. -/
theorem c7_witness :
    evaluate_voice StubLLM.evaluate_text sEmpty 0 1 "Hello" =
      (.notFound "Voice profile version 1 not found for this brand", sEmpty) ∧
    (evaluate_voice StubLLM.evaluate_text sEmpty 0 1 "Hello").2.voice_evaluations
      = sEmpty.voice_evaluations :=
  c7_evaluate_missing_version_404 StubLLM.evaluate_text sEmpty 0 1 "Hello" rfl

/-- C9: a brand created through the registry, when fetched by the id the
create operation returned, yields a record with exactly the name and
canonical url supplied at creation. -/
theorem c9_create_fetch_roundtrip (s : DBState) (req : CreateBrandRequest)
    (hf : brandIdsFresh s) :
    (create_brand s req).1.name = req.name ∧
    (create_brand s req).1.canonical_url = some req.canonical_url ∧
    get_brand_by_id (create_brand s req).2 (create_brand s req).1.id =
      some { id := (create_brand s req).1.id, name := req.name,
             canonical_url := some req.canonical_url } := by
  have hnone : s.brands.find? (fun b => b.id == s.nextId) = none := by
    rw [List.find?_eq_none]
    intro b hb
    have := hf b hb
    simp only [beq_iff_eq]
    omega
  refine ⟨rfl, rfl, ?_⟩
  unfold get_brand_by_id create_brand
  simp [List.find?_append, hnone, List.find?]

/-- Witness for C9: round-trip through the empty store. -/
theorem c9_witness :
    (create_brand sEmpty { name := "Acme", canonical_url := "https://acme.com" }).1.name
      = "Acme" ∧
    (create_brand sEmpty { name := "Acme", canonical_url := "https://acme.com" }).1.canonical_url
      = some "https://acme.com" ∧
    get_brand_by_id (create_brand sEmpty { name := "Acme", canonical_url := "https://acme.com" }).2
        (create_brand sEmpty { name := "Acme", canonical_url := "https://acme.com" }).1.id =
      some { id := (create_brand sEmpty { name := "Acme", canonical_url := "https://acme.com" }).1.id,
             name := "Acme", canonical_url := some "https://acme.com" } :=
  c9_create_fetch_roundtrip sEmpty { name := "Acme", canonical_url := "https://acme.com" }
    (fun b hb => absurd hb (List.not_mem_nil b))

/-- C1: a successful `generate_voice_profile` run assigns version 1 when the
brand has no stored voice profiles and `V + 1` when the brand's highest stored
version is `V`; the persisted profile carries this computed version, and the
version the LLM gateway returned is irrelevant — overriding it changes
nothing about the outcome. -/
theorem c1_version_assignment (net : String → Except String String)
    (llm : LLMGen) (s : DBState) (brand_id : Nat)
    (req : CreateVoiceProfileRequest) (vp : VoiceProfileRow) (s' : DBState)
    (hg : generate_voice_profile net llm s brand_id req = (.ok vp, s')) :
    (brandVersions s brand_id = [] → vp.version = 1) ∧
    (∀ V, V ∈ brandVersions s brand_id →
      (∀ w ∈ brandVersions s brand_id, w ≤ V) → vp.version = V + 1) ∧
    vp ∈ s'.voice_profiles ∧
    (∀ v0, generate_voice_profile net
        (fun b st sp => (llm b st sp).map (fun g => { g with version := v0 }))
        s brand_id req = (.ok vp, s')) := by
  obtain ⟨brand, g, hfind, hllm, hvp, hs'⟩ :=
    generate_ok_elim net llm s brand_id req vp s' hg
  have hver : vp.version = next_version s brand_id := by rw [hvp]; rfl
  refine ⟨?_, ?_, ?_, ?_⟩
  · intro hempty
    have hfilter : s.voice_profiles.filter (fun p => p.brand_id == brand_id) = [] :=
      List.map_eq_nil_iff.mp hempty
    have hnone : latest_voice s.voice_profiles brand_id = none := by
      unfold latest_voice
      rw [hfilter]
      rfl
    rw [hver]
    unfold next_version
    rw [hnone]
  · intro V hV hmax
    obtain ⟨p, hp, hpV⟩ := List.mem_map.mp hV
    cases hl : latest_voice s.voice_profiles brand_id with
    | none =>
      have hfilter := latest_voice_none _ _ hl
      rw [hfilter] at hp
      simp at hp
    | some m =>
      obtain ⟨hmem, hge⟩ := latest_voice_some _ _ m hl
      have h1 : V ≤ m.version := hpV ▸ hge p hp
      have h2 : m.version ≤ V :=
        hmax m.version (List.mem_map_of_mem (fun p => p.version) hmem)
      have hmV : m.version = V := le_antisymm h2 h1
      rw [hver]
      unfold next_version
      rw [hl]
      simp only []
      omega
  · rw [hs', hvp]
    simp
  · intro v0
    have hllm2 :
        (llm brand (joinSpace ((req.inputs.urls.getD []).map (fetch_page_text net)))
          (req.inputs.writing_samples.getD [])).map
            (fun g => { g with version := v0 }) = some { g with version := v0 } := by
      rw [hllm]
      rfl
    unfold generate_voice_profile
    rw [hfind]
    simp only []
    rw [hllm2]
    simp only []
    rw [hvp, hs']
    rfl

/-- Witness for C1: with one brand and no stored profiles, the persisted
profile gets version 1 even though the gateway reported version 7. -/
theorem c1_witness : (persistedRow s0 0 (gEcho brand0)).version = 1 :=
  (c1_version_assignment net0 llmEcho s0 0 req0 (persistedRow s0 0 (gEcho brand0))
      { s0 with
          voice_profiles := s0.voice_profiles ++ [persistedRow s0 0 (gEcho brand0)]
          nextId := s0.nextId + 1 }
      rfl).1 rfl

/-- C2: completed, non-concurrent operations never produce two stored voice
profiles with the same `(brand_id, version)` pair — one `generate_voice_profile`
step preserves distinctness of the pairs, and when it persists a profile its
version differs from every version previously stored for that brand. -/
theorem c2_unique_pairs (net : String → Except String String) (llm : LLMGen)
    (s : DBState) (brand_id : Nat) (req : CreateVoiceProfileRequest)
    (res : ServiceGenResult) (s' : DBState)
    (hc : GatewayContract llm)
    (hnd : (profilePairs s).Nodup)
    (hg : generate_voice_profile net llm s brand_id req = (res, s')) :
    (profilePairs s').Nodup ∧
    (∀ vp, res = .ok vp → ∀ p ∈ s.voice_profiles, p.brand_id = brand_id →
      p.version ≠ vp.version) := by
  have hkey : ∀ p ∈ s.voice_profiles, p.brand_id = brand_id →
      p.version < next_version s brand_id := by
    intro p hp hpb
    have hpf : p ∈ s.voice_profiles.filter (fun p => p.brand_id == brand_id) :=
      List.mem_filter.mpr ⟨hp, by simp [hpb]⟩
    unfold next_version
    cases hl : latest_voice s.voice_profiles brand_id with
    | none =>
      have hfilter := latest_voice_none _ _ hl
      rw [hfilter] at hpf
      simp at hpf
    | some m =>
      obtain ⟨-, hge⟩ := latest_voice_some _ _ m hl
      have := hge p hpf
      simp only []
      omega
  rcases generate_shape net llm s brand_id req with ⟨msg, hsh⟩ | hsh | ⟨brand, g, hfind, hllm, hsh⟩
  · rw [hsh] at hg
    have hres : ServiceGenResult.brandMissing msg = res := congrArg Prod.fst hg
    have hst : s = s' := congrArg Prod.snd hg
    refine ⟨hst ▸ hnd, fun vp hvp => ?_⟩
    rw [← hres] at hvp
    cases hvp
  · rw [hsh] at hg
    have hres : ServiceGenResult.attrError = res := congrArg Prod.fst hg
    have hst : s = s' := congrArg Prod.snd hg
    refine ⟨hst ▸ hnd, fun vp hvp => ?_⟩
    rw [← hres] at hvp
    cases hvp
  · rw [hsh] at hg
    have hres : ServiceGenResult.ok (persistedRow s brand_id g) = res :=
      congrArg Prod.fst hg
    have hst : s' = { s with
        voice_profiles := s.voice_profiles ++ [persistedRow s brand_id g]
        nextId := s.nextId + 1 } := (congrArg Prod.snd hg).symm
    have hrow_brand : (persistedRow s brand_id g).brand_id = brand_id := by
      have h1 : g.brand_id = brand.id := hc brand _ _ g hllm
      have h2 := List.find?_some hfind
      have h3 : brand.id = brand_id := by simpa using h2
      show g.brand_id = brand_id
      rw [h1, h3]
    have hfresh : ∀ p ∈ s.voice_profiles, p.brand_id = brand_id →
        p.version ≠ (persistedRow s brand_id g).version := by
      intro p hp hpb
      have := hkey p hp hpb
      show p.version ≠ next_version s brand_id
      omega
    constructor
    · rw [hst]
      have hpp : profilePairs { s with
          voice_profiles := s.voice_profiles ++ [persistedRow s brand_id g]
          nextId := s.nextId + 1 } =
          profilePairs s ++ [((persistedRow s brand_id g).brand_id,
            (persistedRow s brand_id g).version)] := by
        unfold profilePairs
        simp
      rw [hpp, List.nodup_append]
      refine ⟨hnd, List.nodup_singleton _, ?_⟩
      intro a ha hb
      simp only [List.mem_singleton] at hb
      subst hb
      obtain ⟨p, hp, hpe⟩ := List.mem_map.mp ha
      have hpb : p.brand_id = brand_id := by
        have := congrArg Prod.fst hpe
        simpa [hrow_brand] using this
      have hpv : p.version = (persistedRow s brand_id g).version :=
        congrArg Prod.snd hpe
      exact hfresh p hp hpb hpv
    · intro vp hvp p hp hpb
      rw [← hres] at hvp
      have : persistedRow s brand_id g = vp := by
        cases hvp
        rfl
      rw [← this]
      exact hfresh p hp hpb

/-- Witness for C2: the pair list stays duplicate free after a generation
against the one-brand store. -/
theorem c2_witness :
    (profilePairs (generate_voice_profile net0 llmEcho s0 0 req0).2).Nodup :=
  (c2_unique_pairs net0 llmEcho s0 0 req0
    (generate_voice_profile net0 llmEcho s0 0 req0).1
    (generate_voice_profile net0 llmEcho s0 0 req0).2
    (fun b st sp g h => by cases h; rfl)
    (by decide)
    rfl).1

/-- Counterexample for C8: with the brand present and the LLM gateway failing
(`ProviderLLM.generate_voice_profile` returned `None`), the generate route
does not respond 404 — the uncaught `AttributeError` surfaces as a server
error; nothing is persisted, but the claimed 404 mapping does not happen. -/
theorem c8_counterexample :
    generate_voice net0 llmFail s0 0 req0 = (GenRouteResult.serverError, s0) := by
  rfl

/-- C8 as amended: a voice-generation request responds 201 with the created,
persisted profile on success and 404 when the target brand is absent; when
the LLM gateway fails it raises an unhandled error (a 500-equivalent, not a
404), and never yields a success response or a persisted profile. -/
theorem c8_amended (net : String → Except String String) (llm : LLMGen)
    (s : DBState) (brand_id : Nat) (req : CreateVoiceProfileRequest) :
    (s.brands.find? (fun b => b.id == brand_id) = none →
      generate_voice net llm s brand_id req =
        (.notFound s!"Brand with id {brand_id} not found", s)) ∧
    (∀ vp s', generate_voice_profile net llm s brand_id req = (.ok vp, s') →
      generate_voice net llm s brand_id req = (.created vp, s') ∧
      vp ∈ s'.voice_profiles) ∧
    (∀ brand, s.brands.find? (fun b => b.id == brand_id) = some brand →
      llm brand (joinSpace ((req.inputs.urls.getD []).map (fetch_page_text net)))
        (req.inputs.writing_samples.getD []) = none →
      generate_voice net llm s brand_id req = (.serverError, s)) := by
  refine ⟨fun h => ?_, fun vp s' hg => ?_, fun brand hb hl => ?_⟩
  · unfold generate_voice
    rw [generate_brand_missing net llm s brand_id req h]
  · constructor
    · unfold generate_voice
      rw [hg]
    · obtain ⟨brand, g, -, -, hvp, hs'⟩ :=
        generate_ok_elim net llm s brand_id req vp s' hg
      rw [hs', hvp]
      simp
  · unfold generate_voice
    rw [generate_attr_error net llm s brand_id req brand hb hl]

/-- Witness for C8 as amended: generating against the empty store is a 404. -/
theorem c8_witness :
    generate_voice net0 llmFail sEmpty 0 req0 =
      (.notFound "Brand with id 0 not found", sEmpty) :=
  (c8_amended net0 llmFail sEmpty 0 req0).1 rfl

/-- C10: when fetching a url fails with a request error, `fetch_page_text`
does not raise — it returns `"Error fetching <url>: <error>"` as page text,
that string is concatenated into the site text handed to the LLM backend, and
the voice-generation run still succeeds. -/
theorem c10_fetch_error_becomes_site_text (net : String → Except String String)
    (llm : LLMGen) (s : DBState) (brand_id : Nat)
    (req : CreateVoiceProfileRequest) (url e : String) (brand : BrandRow)
    (hurl : url ∈ req.inputs.urls.getD [])
    (hnet : net url = .error e)
    (hb : s.brands.find? (fun b => b.id == brand_id) = some brand)
    (hllm : ∀ st sp, (llm brand st sp).isSome = true) :
    fetch_page_text net url = "Error fetching " ++ url ++ ": " ++ e ∧
    strContains (joinSpace ((req.inputs.urls.getD []).map (fetch_page_text net)))
      ("Error fetching " ++ url ++ ": " ++ e) ∧
    ∃ vp s', generate_voice_profile net llm s brand_id req = (.ok vp, s') := by
  have hfetch : fetch_page_text net url = "Error fetching " ++ url ++ ": " ++ e := by
    unfold fetch_page_text
    rw [hnet]
  refine ⟨hfetch, ?_, ?_⟩
  · have hmem : fetch_page_text net url ∈
        (req.inputs.urls.getD []).map (fetch_page_text net) :=
      List.mem_map_of_mem _ hurl
    rw [hfetch] at hmem
    exact joinSpace_contains _ _ hmem
  · cases hl : llm brand
        (joinSpace ((req.inputs.urls.getD []).map (fetch_page_text net)))
        (req.inputs.writing_samples.getD []) with
    | none =>
      have := hllm (joinSpace ((req.inputs.urls.getD []).map (fetch_page_text net)))
        (req.inputs.writing_samples.getD [])
      rw [hl] at this
      simp at this
    | some g =>
      refine ⟨persistedRow s brand_id g,
        { s with
            voice_profiles := s.voice_profiles ++ [persistedRow s brand_id g]
            nextId := s.nextId + 1 }, ?_⟩
      unfold generate_voice_profile
      rw [hb]
      simp only []
      rw [hl]

/-- Witness for C10: an unreachable url turns into the error string inside
the site text and generation still succeeds against the one-brand store. -/
theorem c10_witness :
    fetch_page_text netErr "https://down.example" =
      "Error fetching " ++ "https://down.example" ++ ": " ++ "connection refused" ∧
    strContains (joinSpace ((reqUrl.inputs.urls.getD []).map (fetch_page_text netErr)))
      ("Error fetching " ++ "https://down.example" ++ ": " ++ "connection refused") ∧
    ∃ vp s', generate_voice_profile netErr llmEcho s0 0 reqUrl = (.ok vp, s') :=
  c10_fetch_error_becomes_site_text netErr llmEcho s0 0 reqUrl
    "https://down.example" "connection refused" brand0
    (by simp [reqUrl]) rfl rfl (fun st sp => rfl)

end VoiceAPI
